import Mathlib

/-!
Verification of the `dbresolver` package of billygrinding/mmk-be: a logical
database handle that routes reads to an optional read-only replica with
fallback to the read-write primary on connection-level failures, and routes
writes to the primary only.

The embedding is shallow: each physical connection is a record of pure
response functions, each handle operation returns its result together with
the list of physical calls it performed (the trace), and machine behaviour
such as goroutine fan-out is determinized to index order as the spec
describes.
-/

namespace Dbresolver

/-- Placeholder arguments of a query, as Go passes `args ...interface\x7b\x7d`. -/
abbrev Arg := String

/-- A context value (`context.Context`); opaque to the router, so a Nat. -/
abbrev Ctx := Nat

/-- A Go `error` value that is not nil: either a plain error carrying only a
message, or a structured `pq.Error` of the lib/pq driver carrying a message
and a five-character SQLSTATE code. A nil error is `Option.none` of this. -/
inductive Err where
  | generic (msg : String)
  | pq (msg : String) (code : String)
deriving DecidableEq, Repr

/-- The string `err.Error()` yields: the message itself for a plain error,
and the lib/pq rendering with its fixed prefix for a `pq.Error`. -/
def Err.errorMessage : Err → String
  | .generic m => m
  | .pq m _ => "pq: " ++ m

/-- A `sql.Row`: the row value together with the embedded deferred error
that `Row.Err()` exposes. -/
structure Row where
  val : Nat
  err : Option Err
deriving DecidableEq, Repr

/-- `startsWithChars pat s`: the character list `s` starts with `pat`. -/
def startsWithChars : List Char → List Char → Bool
  | [], _ => true
  | _ :: _, [] => false
  | a :: as, b :: bs => a == b && startsWithChars as bs

/-- `occursInChars pat s`: `pat` occurs contiguously somewhere in `s`. -/
def occursInChars (pat : List Char) : List Char → Bool
  | [] => startsWithChars pat []
  | c :: rest => startsWithChars pat (c :: rest) || occursInChars pat rest

/-- Go `strings.Contains(s, pat)`: `pat` occurs as a contiguous substring
of `s` (true for the empty pattern). -/
def strContains (s pat : String) : Bool :=
  occursInChars pat.toList s.toList

/-- One physical call observed by an underlying connection, tagged with the
identity of that connection. -/
inductive Event where
  | query (connId : Nat) (q : String) (args : List Arg)
  | queryCtx (connId : Nat) (ctx : Ctx) (q : String) (args : List Arg)
  | queryRow (connId : Nat) (q : String) (args : List Arg)
  | queryRowCtx (connId : Nat) (ctx : Ctx) (q : String) (args : List Arg)
  | exec (connId : Nat) (q : String) (args : List Arg)
  | execCtx (connId : Nat) (ctx : Ctx) (q : String) (args : List Arg)
  | txBegin (connId : Nat)
  | txBeginCtx (connId : Nat) (ctx : Ctx)
  | ping (connId : Nat)
  | pingCtx (connId : Nat) (ctx : Ctx)
  | close (connId : Nat)
deriving DecidableEq, Repr

/-- A physical database connection (`*sql.DB`): an identity plus a pure
response function for every operation the router invokes on it. `*sql.Rows`,
`sql.Result` and `*sql.Tx` values are modelled as Nat handles. -/
structure Conn where
  id : Nat
  queryFn : String → List Arg → Nat × Option Err
  queryCtxFn : Ctx → String → List Arg → Nat × Option Err
  queryRowFn : String → List Arg → Row
  queryRowCtxFn : Ctx → String → List Arg → Row
  execFn : String → List Arg → Nat × Option Err
  execCtxFn : Ctx → String → List Arg → Nat × Option Err
  beginFn : Nat × Option Err
  beginTxFn : Ctx → Option Nat → Nat × Option Err
  pingFn : Option Err
  pingCtxFn : Ctx → Option Err
  closeFn : Option Err

/-- The logical database handle (`dbresolver.DB`): the read-write primary,
the optional read-only replica, and the connection count. -/
structure DB where
  rwdb : Conn
  rodb : Option Conn
  totalConnection : Nat

/-- `DB.ReadOnly`: the replica if present, else the primary. -/
def DB.ReadOnly (db : DB) : Conn :=
  match db.rodb with
  | none => db.rwdb
  | some ro => ro

/-- `DB.ReadWrite`: the primary. -/
def DB.ReadWrite (db : DB) : Conn := db.rwdb

/-- The helper `ArrayContainsStr`: linear search of `val` in `arr`. -/
def ArrayContainsStr : List String → String → Bool
  | [], _ => false
  | v :: rest, val => if v == val then true else ArrayContainsStr rest val

/-- The SQLSTATE codes the classifier accepts, as listed inline in
`isConnectionError`. -/
def connectionErrorPqCodes : List String :=
  ["08000", "08003", "08006", "08001", "08004", "08007", "08P01",
   "57P01", "57P02", "57P03",
   "53000", "53100", "53200", "53300", "53400"]

/-- `DB.isConnectionError`: a nil error is not a connection error; otherwise
the rendered message is matched against six substrings, and failing that the
error must be a structured `pq.Error` whose code is one of the listed
SQLSTATE codes. The receiver is unused, as in the source. -/
def DB.isConnectionError (_db : DB) : Option Err → Bool
  | none => false
  | some e =>
    if strContains e.errorMessage "connection reset by peer" ||
       strContains e.errorMessage "connection refused" ||
       strContains e.errorMessage "timed out" ||
       strContains e.errorMessage "timeout" ||
       strContains e.errorMessage "starting up" ||
       strContains e.errorMessage "EOF" then
      true
    else
      match e with
      | .pq _ code =>
        if ArrayContainsStr connectionErrorPqCodes code then true else false
      | .generic _ => false

/-- `DB.Query`: run on the read-only side; on a classified connection error
rerun the same query with the same arguments on the primary and return that
result in place of the failed one. -/
def DB.Query (db : DB) (q : String) (args : List Arg) :
    (Nat × Option Err) × List Event :=
  let r := (db.ReadOnly).queryFn q args
  if db.isConnectionError r.2 then
    ((db.ReadWrite).queryFn q args,
     [Event.query (db.ReadOnly).id q args, Event.query (db.ReadWrite).id q args])
  else
    (r, [Event.query (db.ReadOnly).id q args])

/-- `DB.QueryContext`: the context variant of `DB.Query`. -/
def DB.QueryContext (db : DB) (ctx : Ctx) (q : String) (args : List Arg) :
    (Nat × Option Err) × List Event :=
  let r := (db.ReadOnly).queryCtxFn ctx q args
  if db.isConnectionError r.2 then
    ((db.ReadWrite).queryCtxFn ctx q args,
     [Event.queryCtx (db.ReadOnly).id ctx q args,
      Event.queryCtx (db.ReadWrite).id ctx q args])
  else
    (r, [Event.queryCtx (db.ReadOnly).id ctx q args])

/-- `DB.QueryRow`: run on the read-only side; the fallback decision inspects
the embedded error of the returned row immediately. -/
def DB.QueryRow (db : DB) (q : String) (args : List Arg) :
    Row × List Event :=
  let row := (db.ReadOnly).queryRowFn q args
  if db.isConnectionError row.err then
    ((db.ReadWrite).queryRowFn q args,
     [Event.queryRow (db.ReadOnly).id q args,
      Event.queryRow (db.ReadWrite).id q args])
  else
    (row, [Event.queryRow (db.ReadOnly).id q args])

/-- `DB.QueryRowContext`: the context variant of `DB.QueryRow`. -/
def DB.QueryRowContext (db : DB) (ctx : Ctx) (q : String) (args : List Arg) :
    Row × List Event :=
  let row := (db.ReadOnly).queryRowCtxFn ctx q args
  if db.isConnectionError row.err then
    ((db.ReadWrite).queryRowCtxFn ctx q args,
     [Event.queryRowCtx (db.ReadOnly).id ctx q args,
      Event.queryRowCtx (db.ReadWrite).id ctx q args])
  else
    (row, [Event.queryRowCtx (db.ReadOnly).id ctx q args])

/-- `DB.Exec`: always on the primary. -/
def DB.Exec (db : DB) (q : String) (args : List Arg) :
    (Nat × Option Err) × List Event :=
  ((db.ReadWrite).execFn q args, [Event.exec (db.ReadWrite).id q args])

/-- `DB.ExecContext`: always on the primary. -/
def DB.ExecContext (db : DB) (ctx : Ctx) (q : String) (args : List Arg) :
    (Nat × Option Err) × List Event :=
  ((db.ReadWrite).execCtxFn ctx q args,
   [Event.execCtx (db.ReadWrite).id ctx q args])

/-- `DB.Begin`: always on the primary. -/
def DB.Begin (db : DB) : (Nat × Option Err) × List Event :=
  ((db.ReadWrite).beginFn, [Event.txBegin (db.ReadWrite).id])

/-- `DB.BeginTx`: always on the primary. -/
def DB.BeginTx (db : DB) (ctx : Ctx) (opts : Option Nat) :
    (Nat × Option Err) × List Event :=
  ((db.ReadWrite).beginTxFn ctx opts, [Event.txBeginCtx (db.ReadWrite).id ctx])

/-- `DB.Ping`: ping the primary; on failure return that error at once (the
replica is not pinged); on success ping the replica when present and return
its result. -/
def DB.Ping (db : DB) : Option Err × List Event :=
  match db.rwdb.pingFn with
  | some e => (some e, [Event.ping db.rwdb.id])
  | none =>
    match db.rodb with
    | some ro => (ro.pingFn, [Event.ping db.rwdb.id, Event.ping ro.id])
    | none => (none, [Event.ping db.rwdb.id])

/-- `DB.PingContext`: ping the primary, and the replica when present, in two
goroutines joined by a wait group; the replica-side error variable stays nil
when there is no replica. A non-nil error (the primary-side one) is returned
only when both error variables are non-nil. -/
def DB.PingContext (db : DB) (ctx : Ctx) : Option Err × List Event :=
  let errRWDB := db.rwdb.pingCtxFn ctx
  let errRODB : Option Err :=
    match db.rodb with
    | some ro => ro.pingCtxFn ctx
    | none => none
  let evs :=
    Event.pingCtx db.rwdb.id ctx ::
      (match db.rodb with
       | some ro => [Event.pingCtx ro.id ctx]
       | none => [])
  (if errRWDB.isSome && errRODB.isSome then errRWDB else none, evs)

/-- Modelled from the spec: the helper `doParallely` of the `dbresolver`
package is used by `Open`, `Close` and `Prepare` but its file is not among
the repository sources provided. Per the spec it runs the `n` indexed
closures concurrently, waits for all of them, and returns the first non-nil
error encountered; here it is determinized to index order, every closure
being executed and the traces being concatenated in index order. -/
def doParallely (n : Nat) (f : Nat → Option Err × List Event) :
    Option Err × List Event :=
  let results := (List.range n).map f
  (results.foldr (fun r acc => r.1 <|> acc) none,
   results.foldr (fun r acc => r.2 ++ acc) [])

/-- `DB.Close`: close the connections through the fan-out helper, slot 0
being the primary and slot 1 the replica. A missing replica in slot 1 would
be a nil-pointer dereference in Go; it is modelled as a distinguished error
and is unreachable while the connection-count invariant holds. -/
def DB.Close (db : DB) : Option Err × List Event :=
  doParallely db.totalConnection (fun i =>
    if i == 0 then
      (db.rwdb.closeFn, [Event.close db.rwdb.id])
    else
      match db.rodb with
      | some ro => (ro.closeFn, [Event.close ro.id])
      | none =>
        (some (Err.generic
          "runtime error: invalid memory address or nil pointer dereference"),
         []))

/-- Go `strings.Split` on a single-character separator, on character lists:
never returns the empty list, and a string with n separators yields n+1
pieces. -/
def splitOnSep (sep : Char) : List Char → List (List Char)
  | [] => [[]]
  | c :: rest =>
    match splitOnSep sep rest with
    | [] => [[]]
    | h :: t => if c = sep then [] :: h :: t else (c :: h) :: t

/-- Go `strings.Split(s, ";")` specialised to a one-character separator. -/
def goSplit (s : String) (sep : Char) : List String :=
  (splitOnSep sep s.toList).map (fun cs => String.mk cs)

/-- `Open`: split the DSN list on semicolons, cap the connection count at
two, open slot 0 as the primary and, when the count is two, slot 1 as the
replica, both always attempted, the first error in index order winning (the
fan-out helper determinized as in `doParallely`). The second component is
the list of DSNs actually passed to the driver-level open. The nil list
case never occurs, since the split of a string is never empty (see
`goSplit_length_pos`). -/
def Open (sqlOpen : String → String → Except Err Conn)
    (driverName dataSourceNames : String) : Except Err DB × List String :=
  let conns := goSplit dataSourceNames ';'
  let totalConnection := if conns.length > 2 then 2 else conns.length
  match conns with
  | [] => (Except.error (Err.generic "no data source name"), [])
  | [d0] =>
    match sqlOpen driverName d0 with
    | Except.error e => (Except.error e, [d0])
    | Except.ok rw => (Except.ok ⟨rw, none, totalConnection⟩, [d0])
  | d0 :: d1 :: _ =>
    match sqlOpen driverName d0, sqlOpen driverName d1 with
    | Except.error e, _ => (Except.error e, [d0, d1])
    | Except.ok _, Except.error e => (Except.error e, [d0, d1])
    | Except.ok rw, Except.ok ro =>
      (Except.ok ⟨rw, some ro, totalConnection⟩, [d0, d1])

/-- `WrapDatabaseConnection`: a nil primary is a panic in Go, modelled as an
error result; otherwise the handle wraps the two connections with the
connection count derived from replica presence. -/
def WrapDatabaseConnection (rwDB roDB : Option Conn) : Except Err DB :=
  match rwDB with
  | none => Except.error (Err.generic "RW Database is required")
  | some rw => Except.ok ⟨rw, roDB, if roDB.isSome then 2 else 1⟩

/-- The connection-count invariant of the spec data model. -/
def DB.connInvariant (db : DB) : Prop :=
  (db.totalConnection = 1 ∨ db.totalConnection = 2) ∧
  (db.totalConnection = 2 ↔ db.rodb.isSome = true)

/-- Invoking `Query` on a physical connection directly, bypassing the
router: one execution, its own result. -/
def Conn.queryDirect (c : Conn) (q : String) (args : List Arg) :
    (Nat × Option Err) × List Event :=
  (c.queryFn q args, [Event.query c.id q args])

/-- Invoking `QueryContext` on a physical connection directly. -/
def Conn.queryCtxDirect (c : Conn) (ctx : Ctx) (q : String) (args : List Arg) :
    (Nat × Option Err) × List Event :=
  (c.queryCtxFn ctx q args, [Event.queryCtx c.id ctx q args])

/-- Invoking `QueryRow` on a physical connection directly. -/
def Conn.queryRowDirect (c : Conn) (q : String) (args : List Arg) :
    Row × List Event :=
  (c.queryRowFn q args, [Event.queryRow c.id q args])

/-- Invoking `QueryRowContext` on a physical connection directly. -/
def Conn.queryRowCtxDirect (c : Conn) (ctx : Ctx) (q : String) (args : List Arg) :
    Row × List Event :=
  (c.queryRowCtxFn ctx q args, [Event.queryRowCtx c.id ctx q args])

/-- A connection with uniform behaviour, used for concrete instances: every
read returns the value `i` with the given read error, pings and closes
return the given errors, writes succeed. -/
def mkConn (i : Nat) (readErr pingErr closeErr : Option Err) : Conn where
  id := i
  queryFn := fun _ _ => (i, readErr)
  queryCtxFn := fun _ _ _ => (i, readErr)
  queryRowFn := fun _ _ => ⟨i, readErr⟩
  queryRowCtxFn := fun _ _ _ => ⟨i, readErr⟩
  execFn := fun _ _ => (i, none)
  execCtxFn := fun _ _ _ => (i, none)
  beginFn := (i, none)
  beginTxFn := fun _ _ => (i, none)
  pingFn := pingErr
  pingCtxFn := fun _ => pingErr
  closeFn := closeErr

/-- A healthy primary connection for concrete instances. -/
def primConn : Conn := mkConn 0 none none none

/-- A replica whose reads fail with a refused connection. -/
def refusedReplicaConn : Conn :=
  mkConn 1 (some (Err.generic "connection refused")) none none

/-- A handle whose replica reads fail with a refused connection. -/
def refusedReplicaDB : DB := ⟨primConn, some refusedReplicaConn, 2⟩

/-- A replica whose reads fail with the driver no-rows error. -/
def noRowsReplicaConn : Conn :=
  mkConn 1 (some (Err.generic "sql: no rows in result set")) none none

/-- A handle whose replica reads fail with the no-rows error. -/
def noRowsReplicaDB : DB := ⟨primConn, some noRowsReplicaConn, 2⟩

/-- A handle whose primary ping fails while the replica ping succeeds. -/
def pingMixedDB : DB :=
  ⟨mkConn 0 none (some (Err.generic "connection refused")) none,
   some (mkConn 1 none none none), 2⟩

/-- A replica-less handle whose primary ping fails. -/
def pingFailNoReplicaDB : DB :=
  ⟨mkConn 0 none (some (Err.generic "connection refused")) none, none, 1⟩

/-- A handle with a failing primary ping and a healthy replica. -/
def pingFailPrimaryDB : DB :=
  ⟨mkConn 0 none (some (Err.generic "connection refused")) none,
   some (mkConn 1 none none none), 2⟩

/-- A replica whose ping times out. -/
def pingFailReplicaConn : Conn :=
  mkConn 1 none (some (Err.generic "timeout")) none

/-- A handle with a healthy primary and a replica whose ping fails. -/
def pingFailReplicaDB : DB := ⟨mkConn 0 none none none, some pingFailReplicaConn, 2⟩

/-- A primary whose reads fail with a refused connection. -/
def refusedPrimConn : Conn :=
  mkConn 0 (some (Err.generic "connection refused")) none none

/-- A replica-less handle over that primary. -/
def refusedPrimOnlyDB : DB := ⟨refusedPrimConn, none, 1⟩

/-- A replica-less handle over a healthy primary. -/
def healthyPrimOnlyDB : DB := ⟨primConn, none, 1⟩

/-- A replica whose close fails. -/
def closeFailConn : Conn :=
  mkConn 1 none none (some (Err.generic "close failed"))

/-- A handle whose primary closes cleanly and whose replica close fails. -/
def closeFailReplicaDB : DB := ⟨mkConn 0 none none none, some closeFailConn, 2⟩

/-- Spec-side classification of a connection-level failure, following the
words of the claim: the rendered message holds one of the six substrings,
or the error is a structured pq driver error whose SQLSTATE code is one of
the listed codes; a nil error is never a connection failure. -/
def connectionFailureSpec (err : Option Err) : Prop :=
  ∃ e, err = some e ∧
    (strContains e.errorMessage "connection reset by peer" = true ∨
     strContains e.errorMessage "connection refused" = true ∨
     strContains e.errorMessage "timed out" = true ∨
     strContains e.errorMessage "timeout" = true ∨
     strContains e.errorMessage "starting up" = true ∨
     strContains e.errorMessage "EOF" = true ∨
     ∃ m c, e = Err.pq m c ∧ c ∈ connectionErrorPqCodes)

/-! ## Helper lemmas -/

theorem arrayContainsStr_eq_true_iff (l : List String) (v : String) :
    ArrayContainsStr l v = true ↔ v ∈ l := by
  induction l with
  | nil => simp [ArrayContainsStr]
  | cons a t ih =>
    simp only [ArrayContainsStr]
    by_cases h : (a == v) = true
    · have ha : a = v := by simpa using h
      simp [h, ha]
    · have ha : ¬ v = a := fun hv => h (by simp [hv])
      simp [h, ih, List.mem_cons, ha]

/-! ## Claim theorems -/

/-- C1: for every read call (Query, QueryContext, QueryRow, QueryRowContext)
on a handle with a replica, when the replica-side execution returns an error
classified as a connection-level failure, the same call with the same query
string and arguments is executed against the primary and the primary result
is returned; for the QueryRow family the decision inspects the embedded
error of the returned row. -/
theorem read_fallback_on_connection_error (db : DB) (ro : Conn)
    (h : db.rodb = some ro) (ctx : Ctx) (q : String) (args : List Arg) :
    (db.isConnectionError (ro.queryFn q args).2 = true →
      db.Query q args =
        (db.rwdb.queryFn q args,
         [Event.query ro.id q args, Event.query db.rwdb.id q args])) ∧
    (db.isConnectionError (ro.queryCtxFn ctx q args).2 = true →
      db.QueryContext ctx q args =
        (db.rwdb.queryCtxFn ctx q args,
         [Event.queryCtx ro.id ctx q args,
          Event.queryCtx db.rwdb.id ctx q args])) ∧
    (db.isConnectionError (ro.queryRowFn q args).err = true →
      db.QueryRow q args =
        (db.rwdb.queryRowFn q args,
         [Event.queryRow ro.id q args, Event.queryRow db.rwdb.id q args])) ∧
    (db.isConnectionError (ro.queryRowCtxFn ctx q args).err = true →
      db.QueryRowContext ctx q args =
        (db.rwdb.queryRowCtxFn ctx q args,
         [Event.queryRowCtx ro.id ctx q args,
          Event.queryRowCtx db.rwdb.id ctx q args])) := by
  have hro : db.ReadOnly = ro := by simp [DB.ReadOnly, h]
  refine ⟨?_, ?_, ?_, ?_⟩ <;> intro hc <;>
    simp [DB.Query, DB.QueryContext, DB.QueryRow, DB.QueryRowContext,
      DB.ReadWrite, hro, hc]

/-- Witness for C1 at a concrete handle: the replica read fails with a
refused connection, so the primary is queried and its rows are returned. -/
theorem read_fallback_on_connection_error_witness :
    refusedReplicaDB.Query "SELECT 1" [] =
      ((0, none), [Event.query 1 "SELECT 1" [], Event.query 0 "SELECT 1" []]) := by
  have h :=
    (read_fallback_on_connection_error refusedReplicaDB refusedReplicaConn rfl
      0 "SELECT 1" []).1 (by decide)
  exact h

/-- C2: for every read call on a handle with a replica, when the replica
returns an error not classified as a connection-level failure (a nil error
included), the replica result and exactly that error are returned unchanged
and the primary is never invoked. -/
theorem read_no_fallback_on_other_error (db : DB) (ro : Conn)
    (h : db.rodb = some ro) (ctx : Ctx) (q : String) (args : List Arg) :
    (db.isConnectionError (ro.queryFn q args).2 = false →
      db.Query q args = (ro.queryFn q args, [Event.query ro.id q args])) ∧
    (db.isConnectionError (ro.queryCtxFn ctx q args).2 = false →
      db.QueryContext ctx q args =
        (ro.queryCtxFn ctx q args, [Event.queryCtx ro.id ctx q args])) ∧
    (db.isConnectionError (ro.queryRowFn q args).err = false →
      db.QueryRow q args =
        (ro.queryRowFn q args, [Event.queryRow ro.id q args])) ∧
    (db.isConnectionError (ro.queryRowCtxFn ctx q args).err = false →
      db.QueryRowContext ctx q args =
        (ro.queryRowCtxFn ctx q args,
         [Event.queryRowCtx ro.id ctx q args])) := by
  have hro : db.ReadOnly = ro := by simp [DB.ReadOnly, h]
  refine ⟨?_, ?_, ?_, ?_⟩ <;> intro hc <;>
    simp [DB.Query, DB.QueryContext, DB.QueryRow, DB.QueryRowContext,
      DB.ReadWrite, hro, hc]

/-- Witness for C2 at a concrete handle: the replica read fails with the
no-rows error, which is returned unchanged, the trace holding no call on the
primary (id 0). -/
theorem read_no_fallback_on_other_error_witness :
    noRowsReplicaDB.Query "SELECT 1" [] =
      ((1, some (Err.generic "sql: no rows in result set")),
       [Event.query 1 "SELECT 1" []]) := by
  have h :=
    (read_no_fallback_on_other_error noRowsReplicaDB noRowsReplicaConn rfl
      0 "SELECT 1" []).1 (by decide)
  exact h

/-- C3: every write call (Exec, ExecContext, Begin, BeginTx) executes only
against the primary connection, with no fallback and no replica
involvement, whatever the handle and whatever errors the primary returns. -/
theorem writes_primary_only (db : DB) (ctx : Ctx) (opts : Option Nat)
    (q : String) (args : List Arg) :
    db.Exec q args =
      (db.rwdb.execFn q args, [Event.exec db.rwdb.id q args]) ∧
    db.ExecContext ctx q args =
      (db.rwdb.execCtxFn ctx q args, [Event.execCtx db.rwdb.id ctx q args]) ∧
    db.Begin = (db.rwdb.beginFn, [Event.txBegin db.rwdb.id]) ∧
    db.BeginTx ctx opts =
      (db.rwdb.beginTxFn ctx opts, [Event.txBeginCtx db.rwdb.id ctx]) :=
  ⟨rfl, rfl, rfl, rfl⟩

/-- C4: on a handle with both a primary and a replica, PingContext returns
nil exactly when at least one of the two underlying pings succeeds, and a
non-nil error (the primary-side one) only when both underlying pings
fail. -/
theorem pingContext_succeeds_if_either_reachable (db : DB) (ro : Conn)
    (ctx : Ctx) (h : db.rodb = some ro) :
    ((db.PingContext ctx).1 = none ↔
      (db.rwdb.pingCtxFn ctx = none ∨ ro.pingCtxFn ctx = none)) ∧
    (db.rwdb.pingCtxFn ctx ≠ none → ro.pingCtxFn ctx ≠ none →
      (db.PingContext ctx).1 = db.rwdb.pingCtxFn ctx ∧
        (db.PingContext ctx).1 ≠ none) := by
  cases hrw : db.rwdb.pingCtxFn ctx <;> cases hro2 : ro.pingCtxFn ctx <;>
    simp [DB.PingContext, h, hrw, hro2]

/-- Witness for C4 at a concrete handle: the primary is unreachable, the
replica is reachable, and PingContext reports success. -/
theorem pingContext_succeeds_if_either_reachable_witness :
    (pingMixedDB.PingContext 0).1 = none :=
  (pingContext_succeeds_if_either_reachable pingMixedDB
    (mkConn 1 none none none) 0 rfl).1.mpr (Or.inr rfl)

/-- C10: on a handle with no replica, PingContext always returns nil, even
when the primary ping fails: the replica-side error variable stays nil, so
the both-sides-failed condition never holds. -/
theorem pingContext_no_replica_always_nil (db : DB) (ctx : Ctx)
    (h : db.rodb = none) : (db.PingContext ctx).1 = none := by
  simp [DB.PingContext, h]

/-- Witness for C10 at a concrete handle: the primary ping fails, there is
no replica, and PingContext still reports success. -/
theorem pingContext_no_replica_always_nil_witness :
    (pingFailNoReplicaDB.PingContext 0).1 = none :=
  pingContext_no_replica_always_nil pingFailNoReplicaDB 0 rfl

/-- C6 counterexample: on a handle with both connections whose primary ping
fails, non-context Ping returns after the primary ping alone; the replica
(id 1) is never pinged, so the claim that the replica ping is attempted
even when the primary ping fails is false. -/
theorem ping_replica_not_attempted_counterexample :
    pingFailPrimaryDB.rodb.isSome = true ∧
    (pingFailPrimaryDB.Ping).2 = [Event.ping 0] ∧
    Event.ping 1 ∉ (pingFailPrimaryDB.Ping).2 := by decide

/-- C6 as amended: non-context Ping pings the primary first; when that
fails, its error is returned at once and the replica is not pinged; when
the primary ping succeeds and a replica is present, the replica is pinged
and its result is returned. -/
theorem ping_sequential_early_return (db : DB) (ro : Conn)
    (h : db.rodb = some ro) :
    (∀ e, db.rwdb.pingFn = some e →
      db.Ping = (some e, [Event.ping db.rwdb.id])) ∧
    (db.rwdb.pingFn = none →
      db.Ping = (ro.pingFn, [Event.ping db.rwdb.id, Event.ping ro.id])) := by
  constructor
  · intro e he; simp [DB.Ping, he]
  · intro he; simp [DB.Ping, he, h]

/-- Witness for the amended C6 at a concrete handle: the primary ping
succeeds, so both connections are pinged and the replica error is
returned. -/
theorem ping_sequential_early_return_witness :
    pingFailReplicaDB.Ping =
      (some (Err.generic "timeout"), [Event.ping 0, Event.ping 1]) := by
  have h :=
    (ping_sequential_early_return pingFailReplicaDB pingFailReplicaConn rfl).2 rfl
  exact h

/-- C7 counterexample: on a replica-less handle whose primary returns a
connection-classified error, Query executes the underlying query against
the primary twice, while a direct call on the primary executes it once, so
the call does not behave identically to a direct invocation. -/
theorem no_replica_double_execution_counterexample :
    refusedPrimOnlyDB.rodb.isSome = false ∧
    ((refusedPrimOnlyDB.Query "SELECT 1" []).2).length = 2 ∧
    ((refusedPrimConn.queryDirect "SELECT 1" []).2).length = 1 ∧
    ¬ (refusedPrimOnlyDB.Query "SELECT 1" [] =
        refusedPrimConn.queryDirect "SELECT 1" []) := by decide

/-- C7 as amended: on a handle with no replica every read call is served by
the primary and returns the primary result for that query; when the primary
error is not classified as a connection failure the call is identical to
invoking the primary directly, but when it is so classified the query is
executed against the primary a second time and that second result is
returned, so the primary observes the query twice rather than once. -/
theorem no_replica_reads_served_by_primary (db : DB) (ctx : Ctx)
    (q : String) (args : List Arg) (h : db.rodb = none) :
    ((db.Query q args).1 = db.rwdb.queryFn q args ∧
     (db.isConnectionError (db.rwdb.queryFn q args).2 = false →
       db.Query q args = db.rwdb.queryDirect q args) ∧
     (db.isConnectionError (db.rwdb.queryFn q args).2 = true →
       (db.Query q args).2 =
         [Event.query db.rwdb.id q args, Event.query db.rwdb.id q args])) ∧
    ((db.QueryContext ctx q args).1 = db.rwdb.queryCtxFn ctx q args ∧
     (db.isConnectionError (db.rwdb.queryCtxFn ctx q args).2 = false →
       db.QueryContext ctx q args = db.rwdb.queryCtxDirect ctx q args) ∧
     (db.isConnectionError (db.rwdb.queryCtxFn ctx q args).2 = true →
       (db.QueryContext ctx q args).2 =
         [Event.queryCtx db.rwdb.id ctx q args,
          Event.queryCtx db.rwdb.id ctx q args])) ∧
    ((db.QueryRow q args).1 = db.rwdb.queryRowFn q args ∧
     (db.isConnectionError (db.rwdb.queryRowFn q args).err = false →
       db.QueryRow q args = db.rwdb.queryRowDirect q args) ∧
     (db.isConnectionError (db.rwdb.queryRowFn q args).err = true →
       (db.QueryRow q args).2 =
         [Event.queryRow db.rwdb.id q args,
          Event.queryRow db.rwdb.id q args])) ∧
    ((db.QueryRowContext ctx q args).1 = db.rwdb.queryRowCtxFn ctx q args ∧
     (db.isConnectionError (db.rwdb.queryRowCtxFn ctx q args).err = false →
       db.QueryRowContext ctx q args = db.rwdb.queryRowCtxDirect ctx q args) ∧
     (db.isConnectionError (db.rwdb.queryRowCtxFn ctx q args).err = true →
       (db.QueryRowContext ctx q args).2 =
         [Event.queryRowCtx db.rwdb.id ctx q args,
          Event.queryRowCtx db.rwdb.id ctx q args])) := by
  have hro : db.ReadOnly = db.rwdb := by simp [DB.ReadOnly, h]
  refine ⟨⟨?_, ?_, ?_⟩, ⟨?_, ?_, ?_⟩, ⟨?_, ?_, ?_⟩, ⟨?_, ?_, ?_⟩⟩
  case _ =>
    by_cases hc : db.isConnectionError ((db.rwdb).queryFn q args).2 = true
    · simp [DB.Query, DB.ReadWrite, hro, hc]
    · simp only [Bool.not_eq_true] at hc
      simp [DB.Query, DB.ReadWrite, hro, hc]
  case _ =>
    intro hc
    simp [DB.Query, Conn.queryDirect, DB.ReadWrite, hro, hc]
  case _ =>
    intro hc
    simp [DB.Query, DB.ReadWrite, hro, hc]
  case _ =>
    by_cases hc : db.isConnectionError ((db.rwdb).queryCtxFn ctx q args).2 = true
    · simp [DB.QueryContext, DB.ReadWrite, hro, hc]
    · simp only [Bool.not_eq_true] at hc
      simp [DB.QueryContext, DB.ReadWrite, hro, hc]
  case _ =>
    intro hc
    simp [DB.QueryContext, Conn.queryCtxDirect, DB.ReadWrite, hro, hc]
  case _ =>
    intro hc
    simp [DB.QueryContext, DB.ReadWrite, hro, hc]
  case _ =>
    by_cases hc : db.isConnectionError ((db.rwdb).queryRowFn q args).err = true
    · simp [DB.QueryRow, DB.ReadWrite, hro, hc]
    · simp only [Bool.not_eq_true] at hc
      simp [DB.QueryRow, DB.ReadWrite, hro, hc]
  case _ =>
    intro hc
    simp [DB.QueryRow, Conn.queryRowDirect, DB.ReadWrite, hro, hc]
  case _ =>
    intro hc
    simp [DB.QueryRow, DB.ReadWrite, hro, hc]
  case _ =>
    by_cases hc : db.isConnectionError ((db.rwdb).queryRowCtxFn ctx q args).err = true
    · simp [DB.QueryRowContext, DB.ReadWrite, hro, hc]
    · simp only [Bool.not_eq_true] at hc
      simp [DB.QueryRowContext, DB.ReadWrite, hro, hc]
  case _ =>
    intro hc
    simp [DB.QueryRowContext, Conn.queryRowCtxDirect, DB.ReadWrite, hro, hc]
  case _ =>
    intro hc
    simp [DB.QueryRowContext, DB.ReadWrite, hro, hc]

/-- Witness for the amended C7 at a concrete handle: a replica-less handle
over a healthy primary serves Query exactly as a direct call on the
primary. -/
theorem no_replica_reads_served_by_primary_witness :
    healthyPrimOnlyDB.Query "SELECT 1" [] =
      primConn.queryDirect "SELECT 1" [] := by
  have h :=
    ((no_replica_reads_served_by_primary healthyPrimOnlyDB 0 "SELECT 1" []
      rfl).1).2.1 (by decide)
  exact h

/-- C8: on a handle with both a primary and a replica, Close attempts to
close both underlying connections whatever either close returns; when the
primary close succeeds and the replica close fails, the replica error (a
non-nil error) is returned; the first failure in slot order is the one
surfaced. The fan-out helper is modelled from the spec (see
`doParallely`). -/
theorem close_attempts_both_connections (db : DB) (ro : Conn)
    (h : db.rodb = some ro) (ht : db.totalConnection = 2) :
    (db.Close).2 = [Event.close db.rwdb.id, Event.close ro.id] ∧
    (db.Close).1 = (db.rwdb.closeFn <|> ro.closeFn) ∧
    (∀ e, db.rwdb.closeFn = none → ro.closeFn = some e →
      (db.Close).1 = some e) ∧
    (∀ e, db.rwdb.closeFn = some e → (db.Close).1 = some e) := by
  have hrange : List.range 2 = [0, 1] := rfl
  have hmain : db.Close =
      (db.rwdb.closeFn <|> ro.closeFn,
       [Event.close db.rwdb.id, Event.close ro.id]) := by
    cases hc1 : db.rwdb.closeFn <;> cases hc2 : ro.closeFn <;>
      simp [DB.Close, doParallely, ht, h, hrange, hc1, hc2]
  refine ⟨by rw [hmain], by rw [hmain], ?_, ?_⟩
  · intro e h1 h2; rw [hmain]; simp [h1, h2]
  · intro e h1; rw [hmain]; simp [h1]

/-- Witness for C8 at a concrete handle: the primary close succeeds, the
replica close fails, both closes appear in the trace, and the replica error
is returned. -/
theorem close_attempts_both_connections_witness :
    (closeFailReplicaDB.Close).1 = some (Err.generic "close failed") ∧
    (closeFailReplicaDB.Close).2 = [Event.close 0, Event.close 1] := by
  have h := close_attempts_both_connections closeFailReplicaDB closeFailConn rfl rfl
  exact ⟨h.2.2.1 _ rfl rfl, h.1⟩

/-- C5: isConnectionError classifies an error as a connection-level failure
if and only if the rendered message holds one of the six substrings, or the
error is a structured pq driver error whose SQLSTATE code is one of the
fifteen listed codes; a nil error, and any other error, is not a connection
failure. -/
theorem isConnectionError_iff_spec (db : DB) (err : Option Err) :
    db.isConnectionError err = true ↔ connectionFailureSpec err := by
  cases err with
  | none => simp [DB.isConnectionError, connectionFailureSpec]
  | some e =>
    simp only [connectionFailureSpec, Option.some.injEq, exists_eq_left']
    cases e with
    | generic m =>
      simp [DB.isConnectionError, Bool.or_eq_true]
      tauto
    | pq m c =>
      simp [DB.isConnectionError, Bool.or_eq_true,
        arrayContainsStr_eq_true_iff]
      constructor
      · rintro ((((((h | h) | h) | h) | h) | h) | h) <;> tauto
      · rintro (h | h | h | h | h | h | ⟨m2, c2, ⟨hm, hc⟩, hmem⟩) <;>
          try tauto
        subst hm; subst hc; tauto

/-- The single-character split never yields the empty list. -/
theorem splitOnSep_ne_nil (sep : Char) (l : List Char) :
    splitOnSep sep l ≠ [] := by
  cases l with
  | nil => simp [splitOnSep]
  | cons c rest =>
    simp only [splitOnSep]
    cases splitOnSep sep rest with
    | nil => simp
    | cons hd tl => by_cases hc : c = sep <;> simp [hc]

theorem goSplit_length_pos (s : String) (sep : Char) :
    1 ≤ (goSplit s sep).length := by
  unfold goSplit
  rw [List.length_map]
  exact List.length_pos.mpr (splitOnSep_ne_nil sep s.toList)

/-- C9: every handle a constructor yields satisfies the connection-count
invariant (count in one..two, equal to two exactly when a replica is
present); in Open the first DSN opens the primary, the second (when
present) opens the replica, and any further DSNs are ignored (only the
first two DSNs ever reach the driver-level open). The fan-out helper is
modelled from the spec (see `doParallely`). -/
theorem constructors_connection_invariant
    (sqlOpen : String → String → Except Err Conn) (drv dsns : String)
    (rw ro : Option Conn) :
    (∀ db, (Open sqlOpen drv dsns).1 = Except.ok db → db.connInvariant) ∧
    (∀ db, WrapDatabaseConnection rw ro = Except.ok db → db.connInvariant) ∧
    (∀ d0 t db, goSplit dsns ';' = d0 :: t →
      (Open sqlOpen drv dsns).1 = Except.ok db →
      sqlOpen drv d0 = Except.ok db.rwdb) ∧
    (∀ d0 d1 t db r, goSplit dsns ';' = d0 :: d1 :: t →
      (Open sqlOpen drv dsns).1 = Except.ok db → db.rodb = some r →
      sqlOpen drv d1 = Except.ok r) ∧
    (∀ d0 d1 t, goSplit dsns ';' = d0 :: d1 :: t →
      (Open sqlOpen drv dsns).2 = [d0, d1]) := by
  have hn := goSplit_length_pos dsns ';'
  refine ⟨?_, ?_, ?_, ?_, ?_⟩
  · intro db hdb
    unfold Open at hdb
    cases hsp : goSplit dsns ';' with
    | nil => rw [hsp] at hn; simp at hn
    | cons d0 t =>
      cases t with
      | nil =>
        rw [hsp] at hdb
        cases hr0 : sqlOpen drv d0 <;> simp [hr0] at hdb
        subst hdb
        simp [DB.connInvariant]
      | cons d1 t2 =>
        rw [hsp] at hdb
        cases hr0 : sqlOpen drv d0 <;> cases hr1 : sqlOpen drv d1 <;>
          simp [hr0, hr1] at hdb
        subst hdb
        simp [DB.connInvariant]
  · intro db hdb
    cases rw with
    | none => simp [WrapDatabaseConnection] at hdb
    | some rwc =>
      simp [WrapDatabaseConnection] at hdb
      subst hdb
      cases ro <;> simp [DB.connInvariant]
  · intro d0 t db hsp hdb
    unfold Open at hdb
    rw [hsp] at hdb
    cases t with
    | nil =>
      cases hr0 : sqlOpen drv d0 <;> simp [hr0] at hdb
      subst hdb
      rfl
    | cons d1 t2 =>
      cases hr0 : sqlOpen drv d0 <;> cases hr1 : sqlOpen drv d1 <;>
        simp [hr0, hr1] at hdb
      subst hdb
      rfl
  · intro d0 d1 t db r hsp hdb hro
    unfold Open at hdb
    rw [hsp] at hdb
    cases hr0 : sqlOpen drv d0 <;> cases hr1 : sqlOpen drv d1 <;>
      simp [hr0, hr1] at hdb
    subst hdb
    simp at hro
    subst hro
    rfl
  · intro d0 d1 t hsp
    unfold Open
    rw [hsp]
    cases hr0 : sqlOpen drv d0 <;> cases hr1 : sqlOpen drv d1 <;>
      simp [hr0, hr1]


end Dbresolver
